import Mathlib

/-!
Shallow embedding of the xcargo build-strategy decision engine and
multi-target orchestrator: target-triple parsing and tier classification
(src/target/mod.rs), the requirement oracle (src/target/mod.rs), the Zig
cross-compiler wrapper generator (src/toolchain/zig.rs), container image
selection (src/container/images.rs), the build-strategy selector
(src/build/executor.rs) and sequential/parallel multi-target aggregation
(src/build/executor.rs, src/build/parallel.rs).

Filesystem effects (wrapper-shim creation) are modelled by explicit state
passing over an association-list file store together with a trace of the
paths written; external process results (per-target cargo invocations) are
modelled as an oracle parameter giving each target's build outcome.
-/

namespace Xcargo

/-- Error type, mirroring the variants of `Error` in src/error/mod.rs that
the modelled core constructs. -/
inductive Error where
  | TargetNotFound (msg : String)
  | Toolchain (msg : String)
  | Build (msg : String)
  | Container (msg : String)
  | Config (msg : String)
  deriving Repr, DecidableEq

/-- Target support tier, mirroring `TargetTier` in src/target/mod.rs. -/
inductive TargetTier where
  | Native
  | Container
  | Specialized
  deriving Repr, DecidableEq

/-- A parsed target platform, mirroring `Target` in src/target/mod.rs. -/
structure Target where
  triple : String
  arch : String
  vendor : String
  os : String
  env : Option String
  tier : TargetTier
  deriving Repr, DecidableEq

/-- Requirements needed to build for a target, mirroring
`TargetRequirements` in src/target/mod.rs. -/
structure TargetRequirements where
  linker : Option String
  tools : List String
  system_libs : List String
  env_vars : List (String × String)
  deriving Repr, DecidableEq

/-- `TargetRequirements::none` in src/target/mod.rs. -/
def TargetRequirements.none : TargetRequirements :=
  { linker := Option.none, tools := [], system_libs := [], env_vars := [] }

/-- Substring test over character lists: does `pat` occur at some offset of
`s`?  This models Rust's `str::contains(&str)`. -/
def strContains (s pat : String) : Bool :=
  (List.range (s.data.length + 1)).any (fun i => pat.data.isPrefixOf (s.data.drop i))

/-- Prefix test over character lists, modelling Rust's
`str::starts_with`. -/
def strStartsWith (s pat : String) : Bool :=
  pat.data.isPrefixOf s.data

/-- ASCII lower-casing, modelling Rust's `str::to_lowercase` on the ASCII
alias strings this program handles. -/
def strToLower (s : String) : String :=
  String.mk (s.data.map Char.toLower)

/-- ASCII upper-casing, modelling Rust's `str::to_uppercase` on the ASCII
target triples this program handles. -/
def strToUpper (s : String) : String :=
  String.mk (s.data.map Char.toUpper)

/-- Character-list splitter for `str::split('-')`: cuts at every dash and
keeps empty segments, so the empty string yields one empty segment. -/
def splitDashAux : List Char → List Char → List String
  | [], acc => [String.mk acc.reverse]
  | c :: rest, acc =>
      if c = '-' then String.mk acc.reverse :: splitDashAux rest []
      else splitDashAux rest (c :: acc)

/-- `str::split('-').collect()` as used by `Target::from_triple`. -/
def splitDash (s : String) : List String :=
  splitDashAux s.data []

/-- Joining with a separator, modelling `[&str]::join("-")`. -/
def strJoin (sep : String) : List String → String
  | [] => ""
  | [x] => x
  | x :: xs => x ++ sep ++ strJoin sep xs

/-- The fixed Native allow-list (`tier1` in `Target::classify_tier`,
src/target/mod.rs). -/
def nativeTier1Triples : List String :=
  ["x86_64-unknown-linux-gnu",
   "x86_64-unknown-linux-musl",
   "x86_64-pc-windows-gnu",
   "x86_64-apple-darwin",
   "aarch64-apple-darwin",
   "i686-pc-windows-gnu",
   "i686-unknown-linux-gnu"]

/-- `Target::classify_tier` in src/target/mod.rs: a fixed allow-list of
native triples, then mobile/embedded/wasm markers, else container. -/
def Target.classify_tier (triple : String) : TargetTier :=
  let tier1 := nativeTier1Triples
  if tier1.contains triple then
    TargetTier.Native
  else if strContains triple "android" || strContains triple "ios"
      || strStartsWith triple "wasm" || strStartsWith triple "thumb"
      || strStartsWith triple "riscv" then
    TargetTier.Specialized
  else
    TargetTier.Container

/-- `Target::from_triple` in src/target/mod.rs: split the triple on dashes;
fewer than 3 components is a target error, otherwise the first three are
arch/vendor/os and any remainder (re-joined with dashes) is the env. -/
def Target.from_triple (triple : String) : Except Error Target :=
  let parts := splitDash triple
  match parts with
  | arch :: vendor :: os :: rest =>
      let env := if rest.isEmpty then Option.none
                 else some (strJoin "-" rest)
      Except.ok { triple := triple, arch := arch, vendor := vendor, os := os,
                  env := env, tier := Target.classify_tier triple }
  | _ =>
      Except.error (Error.TargetNotFound
        ("Invalid target triple: " ++ triple ++ ". Expected format: arch-vendor-os[-env]"))

/-- `Target::resolve_alias` in src/target/mod.rs.  The `macos` arm consults
`Target::detect_host`; in this embedding the host-detection result is an
explicit parameter. -/
def Target.resolve_alias (hostDetect : Except Error Target) (aliasStr : String) :
    Except Error String :=
  let alias_lower := strToLower aliasStr
  let triple : String :=
    if alias_lower = "linux" then "x86_64-unknown-linux-gnu"
    else if alias_lower = "windows" then "x86_64-pc-windows-gnu"
    else if alias_lower = "macos" then
      match hostDetect with
      | Except.ok host =>
          if host.arch = "aarch64" ∧ host.os = "darwin" then "aarch64-apple-darwin"
          else "x86_64-apple-darwin"
      | Except.error _ => "x86_64-apple-darwin"
    else if alias_lower = "linux-arm64" ∨ alias_lower = "linux-aarch64" then
      "aarch64-unknown-linux-gnu"
    else if alias_lower = "linux-armv7" then "armv7-unknown-linux-gnueabihf"
    else if alias_lower = "linux-musl" then "x86_64-unknown-linux-musl"
    else if alias_lower = "linux-arm64-musl" then "aarch64-unknown-linux-musl"
    else if alias_lower = "windows-msvc" then "x86_64-pc-windows-msvc"
    else if alias_lower = "windows-gnu" then "x86_64-pc-windows-gnu"
    else if alias_lower = "windows-32" then "i686-pc-windows-gnu"
    else if alias_lower = "android" ∨ alias_lower = "android-arm64" then
      "aarch64-linux-android"
    else if alias_lower = "android-armv7" then "armv7-linux-androideabi"
    else if alias_lower = "android-x86" then "x86_64-linux-android"
    else if alias_lower = "ios" ∨ alias_lower = "ios-arm64" then "aarch64-apple-ios"
    else if alias_lower = "ios-sim" then "aarch64-apple-ios-sim"
    else if alias_lower = "wasm" ∨ alias_lower = "wasm32" then "wasm32-unknown-unknown"
    else if alias_lower = "wasi" then "wasm32-wasi"
    else aliasStr
  Except.ok triple

/-- `Target::get_requirements` in src/target/mod.rs: a finite match table
keyed by (os, arch, env); unmatched combinations yield empty requirements. -/
def Target.get_requirements (t : Target) : TargetRequirements :=
  let reqs := TargetRequirements.none
  if t.os = "linux" ∧ t.arch = "aarch64" ∧ t.env = some "gnu" then
    { reqs with linker := some "aarch64-linux-gnu-gcc",
                tools := ["aarch64-linux-gnu-gcc"] }
  else if t.os = "linux" ∧ t.arch = "aarch64" ∧ t.env = some "musl" then
    { reqs with linker := some "aarch64-linux-musl-gcc",
                tools := ["aarch64-linux-musl-gcc"] }
  else if t.os = "linux" ∧ t.arch = "armv7" then
    { reqs with linker := some "arm-linux-gnueabihf-gcc",
                tools := ["arm-linux-gnueabihf-gcc"] }
  else if t.os = "linux" ∧ t.arch = "arm" then
    { reqs with linker := some "arm-linux-gnueabi-gcc",
                tools := ["arm-linux-gnueabi-gcc"] }
  else if t.os = "windows" ∧ t.arch = "x86_64" ∧ t.env = some "gnu" then
    { reqs with linker := some "x86_64-w64-mingw32-gcc",
                tools := ["x86_64-w64-mingw32-gcc"] }
  else if t.os = "windows" ∧ t.arch = "i686" ∧ t.env = some "gnu" then
    { reqs with linker := some "i686-w64-mingw32-gcc",
                tools := ["i686-w64-mingw32-gcc"] }
  else if t.os = "windows" ∧ t.env = some "msvc" then
    { reqs with tools := ["cl.exe"] }
  else if t.os = "android" then
    { reqs with tools := ["ndk-build"],
                env_vars := [("ANDROID_NDK_HOME", "$ANDROID_NDK_HOME")] }
  else if t.os = "ios" ∨ (t.os = "darwin" ∧ t.env = some "ios") then
    { reqs with tools := ["xcrun"] }
  else if t.arch = "wasm32" then
    reqs
  else
    reqs

/-- Association-list string map with hash-map insert semantics
(replace the existing binding or append a fresh one). -/
def mapInsert : List (String × String) → String → String → List (String × String)
  | [], k, v => [(k, v)]
  | (k1, v1) :: rest, k, v =>
      if k1 = k then (k, v) :: rest else (k1, v1) :: mapInsert rest k v

/-- Lookup in an association-list string map (first binding wins). -/
def mapGet : List (String × String) → String → Option String
  | [], _ => Option.none
  | (k1, v1) :: rest, k => if k1 = k then some v1 else mapGet rest k

/-- File-system state: an association list from absolute path to file
contents.  Directory structure and permission bits are not modelled; the
wrapper generator only reads existence and writes whole files. -/
structure FSState where
  files : List (String × String)
  deriving Repr, DecidableEq

/-- Contents of a path, if the file exists. -/
def FSState.read (fs : FSState) (p : String) : Option String :=
  mapGet fs.files p

/-- Existence check for a path, modelling `Path::exists`. -/
def FSState.hasFile (fs : FSState) (p : String) : Bool :=
  (fs.read p).isSome

/-- Whole-file write, modelling `fs::write`. -/
def FSState.write (fs : FSState) (p c : String) : FSState :=
  { files := mapInsert fs.files p c }

/-- Path join (`PathBuf::join`) specialised to string paths. -/
def pathJoin (dir leaf : String) : String :=
  dir ++ "/" ++ leaf

/-- Zig toolchain handle, mirroring `ZigToolchain` in src/toolchain/zig.rs:
binary path, version string, and the wrapper-script cache directory. -/
structure ZigToolchain where
  zig_path : String
  version : String
  cache_dir : String
  deriving Repr, DecidableEq

/-- `ZigToolchain::supports_target_name` in src/toolchain/zig.rs: the fixed
set of triples Zig cross-compilation handles, with apple-darwin and wasm32
families explicitly unsupported. -/
def ZigToolchain.supports_target_name (triple : String) : Bool :=
  if triple = "x86_64-unknown-linux-gnu" then true
  else if triple = "aarch64-unknown-linux-gnu" then true
  else if triple = "armv7-unknown-linux-gnueabihf" then true
  else if triple = "i686-unknown-linux-gnu" then true
  else if triple = "arm-unknown-linux-gnueabihf" then true
  else if triple = "x86_64-unknown-linux-musl" then true
  else if triple = "aarch64-unknown-linux-musl" then true
  else if triple = "x86_64-pc-windows-gnu" then true
  else if triple = "i686-pc-windows-gnu" then true
  else if strContains triple "apple-darwin" then false
  else if strContains triple "wasm32" then false
  else false

/-- `ZigToolchain::supports_target` in src/toolchain/zig.rs. -/
def ZigToolchain.supports_target (_zig : ZigToolchain) (target : Target) : Bool :=
  ZigToolchain.supports_target_name target.triple

/-- `ZigToolchain::zig_target_for_rust_target` in src/toolchain/zig.rs:
static table from Rust triples to Zig triple naming. -/
def ZigToolchain.zig_target_for_rust_target (target : Target) : Option String :=
  if target.triple = "x86_64-unknown-linux-gnu" then some "x86_64-linux-gnu"
  else if target.triple = "x86_64-unknown-linux-musl" then some "x86_64-linux-musl"
  else if target.triple = "aarch64-unknown-linux-gnu" then some "aarch64-linux-gnu"
  else if target.triple = "aarch64-unknown-linux-musl" then some "aarch64-linux-musl"
  else if target.triple = "armv7-unknown-linux-gnueabihf" then some "arm-linux-gnueabihf"
  else if target.triple = "arm-unknown-linux-gnueabihf" then some "arm-linux-gnueabihf"
  else if target.triple = "i686-unknown-linux-gnu" then some "i386-linux-gnu"
  else if target.triple = "x86_64-pc-windows-gnu" then some "x86_64-windows-gnu"
  else if target.triple = "i686-pc-windows-gnu" then some "i686-windows-gnu"
  else Option.none

/-- `ZigToolchain::create_wrappers` in src/toolchain/zig.rs (unix branch).
Writes the per-target CC shim unconditionally, writes the shared AR shim
only when absent, and returns the wrapper map together with the new
file-system state and the trace of paths actually written. -/
def ZigToolchain.create_wrappers (zig : ZigToolchain) (target : Target)
    (fs : FSState) :
    Except Error (List (String × String)) × FSState × List String :=
  match ZigToolchain.zig_target_for_rust_target target with
  | Option.none =>
      (Except.error (Error.Toolchain
        ("Target " ++ target.triple ++ " not supported by Zig")), fs, [])
  | some zig_target =>
      let cc_wrapper_path := pathJoin zig.cache_dir (target.triple ++ "-cc")
      let cc_wrapper_content :=
        "#!/bin/sh\nexec zig cc -target " ++ zig_target ++ " \"$@\"\n"
      let fs1 := fs.write cc_wrapper_path cc_wrapper_content
      let wrappers0 := mapInsert [] "CC" cc_wrapper_path
      let wrappers1 := mapInsert wrappers0 "LINKER" cc_wrapper_path
      let ar_wrapper_path := pathJoin zig.cache_dir "zig-ar"
      let ar_wrapper_content := "#!/bin/sh\nexec zig ar \"$@\"\n"
      let ar_exists := fs1.hasFile ar_wrapper_path
      let fs2 := if ar_exists then fs1
                 else fs1.write ar_wrapper_path ar_wrapper_content
      let trace := if ar_exists then [cc_wrapper_path]
                   else [cc_wrapper_path, ar_wrapper_path]
      let wrappers2 := mapInsert wrappers1 "AR" ar_wrapper_path
      (Except.ok wrappers2, fs2, trace)

/-- `ZigToolchain::environment_for_target` in src/toolchain/zig.rs: reject
unsupported targets, create the wrapper shims, then bind CC, AR and the
per-target CARGO_TARGET_<TRIPLE>_LINKER variable to the shim paths. -/
def ZigToolchain.environment_for_target (zig : ZigToolchain) (target : Target)
    (fs : FSState) : Except Error (List (String × String)) × FSState :=
  if ¬ zig.supports_target target then
    (Except.error (Error.Toolchain
      ("Target " ++ target.triple ++ " is not supported by Zig")), fs)
  else
    match zig.create_wrappers target fs with
    | (Except.error e, fs1, _) => (Except.error e, fs1)
    | (Except.ok wrappers, fs1, _) =>
        let env0 : List (String × String) := []
        let env1 := match mapGet wrappers "CC" with
                    | some cc => mapInsert env0 "CC" cc
                    | Option.none => env0
        let env2 := match mapGet wrappers "AR" with
                    | some ar => mapInsert env1 "AR" ar
                    | Option.none => env1
        let env3 := match mapGet wrappers "LINKER" with
                    | some lk =>
                        let linker_env_var :=
                          "CARGO_TARGET_"
                            ++ ((strToUpper target.triple).data.map
                                  (fun c => if c = '-' then '_' else c)).asString
                            ++ "_LINKER"
                        mapInsert env2 linker_env_var lk
                    | Option.none => env2
        (Except.ok env3, fs1)

/-- `ZigToolchain::clean_cache` in src/toolchain/zig.rs: remove the whole
wrapper cache directory (every file under `cache_dir`). -/
def ZigToolchain.clean_cache (zig : ZigToolchain) (fs : FSState) : FSState :=
  { files := fs.files.filter
      (fun pc => !(pc.1.startsWith (zig.cache_dir ++ "/"))) }

/-- Container image information, mirroring `CrossImage` in
src/container/images.rs. -/
structure CrossImage where
  repository : String
  tag : String
  target : String
  deriving Repr, DecidableEq

/-- `CrossImage::full_name` in src/container/images.rs. -/
def CrossImage.full_name (img : CrossImage) : String :=
  img.repository ++ ":" ++ img.tag

/-- Image selector, mirroring `ImageSelector` in src/container/images.rs. -/
structure ImageSelector where
  registry : String
  deriving Repr, DecidableEq

/-- `ImageSelector::new` in src/container/images.rs. -/
def ImageSelector.new : ImageSelector :=
  { registry := "ghcr.io/cross-rs" }

/-- `ImageSelector::select_for_target` in src/container/images.rs: static
triple-to-image table; macOS, wasm32 and unknown triples are recoverable
container errors with dedicated messages. -/
def ImageSelector.select_for_target (sel : ImageSelector) (target : String) :
    Except Error CrossImage :=
  let mk := fun (image_name tag : String) =>
    Except.ok { repository := sel.registry ++ "/" ++ image_name,
                tag := tag, target := target : CrossImage }
  if target = "x86_64-unknown-linux-gnu" then mk "x86_64-unknown-linux-gnu" "latest"
  else if target = "x86_64-unknown-linux-musl" then mk "x86_64-unknown-linux-musl" "latest"
  else if target = "aarch64-unknown-linux-gnu" then mk "aarch64-unknown-linux-gnu" "latest"
  else if target = "aarch64-unknown-linux-musl" then mk "aarch64-unknown-linux-musl" "latest"
  else if target = "armv7-unknown-linux-gnueabihf" then mk "armv7-unknown-linux-gnueabihf" "latest"
  else if target = "arm-unknown-linux-gnueabihf" then mk "arm-unknown-linux-gnueabihf" "latest"
  else if target = "x86_64-pc-windows-gnu" then mk "x86_64-pc-windows-gnu" "latest"
  else if target = "x86_64-apple-darwin" ∨ target = "aarch64-apple-darwin" then
    Except.error (Error.Container
      ("No container image available for macOS target: " ++ target
        ++ "\nConsider using osxcross or build on macOS"))
  else if target = "aarch64-linux-android" then mk "aarch64-linux-android" "latest"
  else if target = "armv7-linux-androideabi" then mk "armv7-linux-androideabi" "latest"
  else if target = "x86_64-linux-android" then mk "x86_64-linux-android" "latest"
  else if target = "i686-linux-android" then mk "i686-linux-android" "latest"
  else if target = "wasm32-unknown-unknown" then
    Except.error (Error.Container
      "WebAssembly doesn't require containers - use native build")
  else
    Except.error (Error.Container
      ("No container image mapping for target: " ++ target
        ++ "\nYou can specify a custom image in xcargo.toml"))

/-- Configuration slice consumed by the strategy selector: the container
policy string `container.use_when` from src/config/mod.rs. -/
structure Config where
  container_use_when : String
  deriving Repr, DecidableEq

/-- Modelled from the spec: the per-invocation build request
(`BuildOptions` lives in src/build/options.rs, which is not present under
src/); §6 lists its inputs — target identifier, release/debug flag,
toolchain override, tri-state wrapper preference (auto/force/disable,
`use_zig : Option Bool` per the callers in src/build/executor.rs and the
tests), container-usage flag, verbosity and pass-through arguments. -/
structure BuildOptions where
  target : Option String
  release : Bool
  verbose : Bool
  toolchain : Option String
  use_container : Bool
  use_zig : Option Bool
  cargo_args : List String
  deriving Repr, DecidableEq

/-- The build strategy chosen for one target: containerised build, Zig
wrapper build (with its environment overrides), or native toolchain. -/
inductive Strategy where
  | Container
  | Zig (env : List (String × String))
  | Native
  deriving Repr, DecidableEq

/-- `Builder::should_use_container_for_target` in src/build/executor.rs:
without the `container` cargo feature it is constantly false; with it, the
config policy string decides ("always" / "never" / "target.os != host.os",
anything else false). -/
def Builder.should_use_container_for_target (containerFeature : Bool)
    (cfg : Config) (host target : Target) : Bool :=
  if ¬ containerFeature then false
  else if cfg.container_use_when = "always" then true
  else if cfg.container_use_when = "never" then false
  else if cfg.container_use_when = "target.os != host.os" then target.os ≠ host.os
  else false

/-- `Builder::try_zig_cross_compilation` in src/build/executor.rs: honour
the tri-state `use_zig` flag; in auto mode only attempt Zig across OSes;
a forced request on an unsupported target (or with Zig missing) is a fatal
toolchain error, while auto mode falls through to `none`. -/
def Builder.try_zig_cross_compilation (zig_toolchain : Option ZigToolchain)
    (host : Target) (target : Target) (options : BuildOptions) (fs : FSState) :
    Except Error (Option (List (String × String))) × FSState :=
  if options.use_zig = some false then (Except.ok Option.none, fs)
  else
    let force_zig := options.use_zig = some true
    let is_cross_os := target.os ≠ host.os
    if ¬ force_zig ∧ ¬ is_cross_os then (Except.ok Option.none, fs)
    else
      match zig_toolchain with
      | some zig =>
          if zig.supports_target target then
            match zig.environment_for_target target fs with
            | (Except.ok env, fs1) => (Except.ok (some env), fs1)
            | (Except.error e, fs1) => (Except.error e, fs1)
          else if force_zig then
            (Except.error (Error.Toolchain
              ("Zig does not support target '" ++ target.triple
                ++ "'. Supported targets: x86_64-linux-gnu, aarch64-linux-gnu, armv7-linux-gnueabihf")),
             fs)
          else (Except.ok Option.none, fs)
      | Option.none =>
          if force_zig then
            (Except.error (Error.Toolchain
              "Zig not found. Install Zig to use --zig flag: brew install zig (macOS) or scoop install zig (Windows)"),
             fs)
          else (Except.ok Option.none, fs)

/-- The strategy-selection segment of `Builder::build` in
src/build/executor.rs (lines 135-147): container short-circuit
(`options.use_container || should_use_container_for_target`), then the Zig
wrapper attempt, else the native path. -/
def Builder.selectStrategy (containerFeature : Bool) (cfg : Config)
    (zig_toolchain : Option ZigToolchain) (host : Target) (target : Target)
    (options : BuildOptions) (fs : FSState) :
    Except Error Strategy × FSState :=
  let should_use_container :=
    options.use_container
      || Builder.should_use_container_for_target containerFeature cfg host target
  if should_use_container then (Except.ok Strategy.Container, fs)
  else
    match Builder.try_zig_cross_compilation zig_toolchain host target options fs with
    | (Except.error e, fs1) => (Except.error e, fs1)
    | (Except.ok (some env), fs1) => (Except.ok (Strategy.Zig env), fs1)
    | (Except.ok Option.none, fs1) => (Except.ok Strategy.Native, fs1)

/-- Per-target outcome oracle: the result of one `Builder::build` (or, in
the parallel mode, of `Builder::new` followed by `build`) for a target. -/
def isErrOutcome (r : Except Error Unit) : Bool :=
  match r with
  | Except.ok _ => false
  | Except.error _ => true

/-- One iteration of the orchestrator loop shared by
`Builder::build_all` (src/build/executor.rs) and
`Builder::build_all_parallel` (src/build/parallel.rs): push the target
onto the success list on `Ok` and onto the failure list on `Err`. -/
def Builder.buildStep (outcome : String → Except Error Unit)
    (acc : List String × List String) (target : String) :
    List String × List String :=
  match outcome target with
  | Except.ok _ => (acc.1 ++ [target], acc.2)
  | Except.error _ => (acc.1, acc.2 ++ [target])

/-- `Builder::build_all` in src/build/executor.rs: run every target in
order, collect successes and failures, and fail overall iff the failure
list is non-empty. -/
def Builder.build_all (outcome : String → Except Error Unit)
    (targets : List String) :
    List String × List String × Except Error Unit :=
  let r := targets.foldl (Builder.buildStep outcome) ([], [])
  (r.1, r.2,
    if r.2.isEmpty then Except.ok ()
    else Except.error (Error.Build "Some targets failed to build"))

/-- `Builder::build_all_parallel` in src/build/parallel.rs: per-target
tasks append to shared success/failure lists in completion order, then the
run fails iff the failure list is non-empty.  `order` is the completion
order of the tasks — a permutation of the requested targets. -/
def Builder.build_all_parallel (outcome : String → Except Error Unit)
    (order : List String) :
    List String × List String × Except Error Unit :=
  let r := order.foldl (Builder.buildStep outcome) ([], [])
  (r.1, r.2,
    if r.2.isEmpty then Except.ok ()
    else Except.error (Error.Build "Some targets failed to build"))

/-- Decidable equality for `Except` results, used to evaluate concrete
runs of the fallible operations. -/
instance {ε α : Type} [DecidableEq ε] [DecidableEq α] :
    DecidableEq (Except ε α) := fun a b =>
  match a, b with
  | Except.ok x, Except.ok y =>
      if h : x = y then isTrue (by rw [h])
      else isFalse (by intro hc; cases hc; exact h rfl)
  | Except.error x, Except.error y =>
      if h : x = y then isTrue (by rw [h])
      else isFalse (by intro hc; cases hc; exact h rfl)
  | Except.ok _, Except.error _ => isFalse (by intro hc; cases hc)
  | Except.error _, Except.ok _ => isFalse (by intro hc; cases hc)


/-! ### Concrete fixtures used by witnesses and counterexamples -/

def zigFix : ZigToolchain :=
  { zig_path := "/usr/local/bin/zig", version := "0.13.0",
    cache_dir := "/home/user/.xcargo/zig-wrappers" }

def targetLinuxGnu : Target :=
  { triple := "x86_64-unknown-linux-gnu", arch := "x86_64", vendor := "unknown",
    os := "linux", env := some "gnu", tier := TargetTier.Native }

def targetDarwinX86 : Target :=
  { triple := "x86_64-apple-darwin", arch := "x86_64", vendor := "apple",
    os := "darwin", env := Option.none, tier := TargetTier.Native }

def hostDarwinArm : Target :=
  { triple := "aarch64-apple-darwin", arch := "aarch64", vendor := "apple",
    os := "darwin", env := Option.none, tier := TargetTier.Native }

def demoOutcome : String → Except Error Unit := fun t =>
  if t = "B" then Except.error (Error.Build ("Build failed for target " ++ t))
  else Except.ok ()

/-- The triples handled by a dedicated arm of select_for_target. -/
def imageTableHandledTriples : List String :=
  ["x86_64-unknown-linux-gnu", "x86_64-unknown-linux-musl",
   "aarch64-unknown-linux-gnu", "aarch64-unknown-linux-musl",
   "armv7-unknown-linux-gnueabihf", "arm-unknown-linux-gnueabihf",
   "x86_64-pc-windows-gnu", "x86_64-apple-darwin", "aarch64-apple-darwin",
   "aarch64-linux-android", "armv7-linux-androideabi", "x86_64-linux-android",
   "i686-linux-android", "wasm32-unknown-unknown"]

/-- The alias keys recognised by `Target::resolve_alias` (lower-cased). -/
def aliasKeys : List String :=
  ["linux", "windows", "macos", "linux-arm64", "linux-aarch64", "linux-armv7",
   "linux-musl", "linux-arm64-musl", "windows-msvc", "windows-gnu", "windows-32",
   "android", "android-arm64", "android-armv7", "android-x86", "ios", "ios-arm64",
   "ios-sim", "wasm", "wasm32", "wasi"]

/-- The host-independent part of the alias table of `Target::resolve_alias`
(every arm except `macos`). -/
def fixedAliasTable : List (String × String) :=
  [("linux", "x86_64-unknown-linux-gnu"),
   ("windows", "x86_64-pc-windows-gnu"),
   ("linux-arm64", "aarch64-unknown-linux-gnu"),
   ("linux-aarch64", "aarch64-unknown-linux-gnu"),
   ("linux-armv7", "armv7-unknown-linux-gnueabihf"),
   ("linux-musl", "x86_64-unknown-linux-musl"),
   ("linux-arm64-musl", "aarch64-unknown-linux-musl"),
   ("windows-msvc", "x86_64-pc-windows-msvc"),
   ("windows-gnu", "x86_64-pc-windows-gnu"),
   ("windows-32", "i686-pc-windows-gnu"),
   ("android", "aarch64-linux-android"),
   ("android-arm64", "aarch64-linux-android"),
   ("android-armv7", "armv7-linux-androideabi"),
   ("android-x86", "x86_64-linux-android"),
   ("ios", "aarch64-apple-ios"),
   ("ios-arm64", "aarch64-apple-ios"),
   ("ios-sim", "aarch64-apple-ios-sim"),
   ("wasm", "wasm32-unknown-unknown"),
   ("wasm32", "wasm32-unknown-unknown"),
   ("wasi", "wasm32-wasi")]


/-! ### Supporting lemmas -/

theorem mapGet_mapInsert_self (m : List (String × String)) (k v : String) :
    mapGet (mapInsert m k v) k = some v := by
  induction m with
  | nil => simp [mapInsert, mapGet]
  | cons kv rest ih =>
    by_cases h : kv.1 = k
    · simp [mapInsert, h, mapGet]
    · simp [mapInsert, h, mapGet, ih]

theorem mapInsert_eq_of_get (m : List (String × String)) (k v : String)
    (h : mapGet m k = some v) : mapInsert m k v = m := by
  induction m with
  | nil => simp [mapGet] at h
  | cons kv rest ih =>
    obtain ⟨k1, v1⟩ := kv
    by_cases hk : k1 = k
    · subst hk
      simp [mapGet] at h
      simp [mapInsert, h]
    · simp [mapGet, hk] at h
      simp [mapInsert, hk, ih h]

theorem mapGet_mapInsert_ne (m : List (String × String)) (k k' v : String)
    (h : k' ≠ k) : mapGet (mapInsert m k v) k' = mapGet m k' := by
  induction m with
  | nil => simp [mapInsert, mapGet, Ne.symm h]
  | cons kv rest ih =>
    by_cases hk : kv.1 = k
    · simp [mapInsert, hk, mapGet, h, Ne.symm h]
    · simp only [mapInsert, hk, if_false]
      by_cases hk' : kv.1 = k'
      · simp [mapGet, hk']
      · simp [mapGet, hk', ih]

theorem FSState.read_write_self (fs : FSState) (p c : String) :
    (fs.write p c).read p = some c :=
  mapGet_mapInsert_self fs.files p c

theorem FSState.write_noop (fs : FSState) (p c : String)
    (h : fs.read p = some c) : fs.write p c = fs := by
  unfold FSState.write
  rw [mapInsert_eq_of_get fs.files p c h]

theorem FSState.read_write_ne (fs : FSState) (p q c : String) (h : q ≠ p) :
    (fs.write p c).read q = fs.read q :=
  mapGet_mapInsert_ne fs.files p q c h

theorem FSState.hasFile_write (fs : FSState) (p q c : String) :
    (fs.write p c).hasFile q = (q = p || fs.hasFile q) := by
  by_cases h : q = p
  · subst h
    simp [FSState.hasFile, FSState.read_write_self]
  · simp [FSState.hasFile, FSState.read_write_ne fs p q c h, h]

theorem buildStep_foldl (outcome : String → Except Error Unit)
    (l : List String) (s f : List String) :
    l.foldl (Builder.buildStep outcome) (s, f)
      = (s ++ l.filter (fun t => !(isErrOutcome (outcome t))),
         f ++ l.filter (fun t => isErrOutcome (outcome t))) := by
  induction l generalizing s f with
  | nil => simp
  | cons x xs ih =>
    simp only [List.foldl_cons, List.filter_cons]
    cases hx : outcome x with
    | ok v =>
      have : Builder.buildStep outcome (s, f) x = (s ++ [x], f) := by
        simp [Builder.buildStep, hx]
      rw [this, ih]
      simp [isErrOutcome, hx]
    | error e =>
      have : Builder.buildStep outcome (s, f) x = (s, f ++ [x]) := by
        simp [Builder.buildStep, hx]
      rw [this, ih]
      simp [isErrOutcome, hx]

theorem linker_key_ne_cc (x : String) :
    ("CARGO_TARGET_" ++ x ++ "_LINKER") ≠ "CC" := by
  intro he
  have hl := congrArg String.length he
  rw [String.length_append, String.length_append] at hl
  have h13 : ("CARGO_TARGET_" : String).length = 13 := by decide
  have h7 : ("_LINKER" : String).length = 7 := by decide
  have h2 : ("CC" : String).length = 2 := by decide
  omega

theorem linker_key_ne_ar (x : String) :
    ("CARGO_TARGET_" ++ x ++ "_LINKER") ≠ "AR" := by
  intro he
  have hl := congrArg String.length he
  rw [String.length_append, String.length_append] at hl
  have h13 : ("CARGO_TARGET_" : String).length = 13 := by decide
  have h7 : ("_LINKER" : String).length = 7 := by decide
  have h2 : ("AR" : String).length = 2 := by decide
  omega

theorem zig_target_isSome_of_supported (target : Target)
    (hsup : ZigToolchain.supports_target_name target.triple = true) :
    ∃ zt, ZigToolchain.zig_target_for_rust_target target = some zt := by
  by_cases h1 : target.triple = "x86_64-unknown-linux-gnu"
  · exact ⟨"x86_64-linux-gnu", by simp [ZigToolchain.zig_target_for_rust_target, h1]⟩
  by_cases h2 : target.triple = "aarch64-unknown-linux-gnu"
  · exact ⟨"aarch64-linux-gnu", by simp [ZigToolchain.zig_target_for_rust_target, h2]⟩
  by_cases h3 : target.triple = "armv7-unknown-linux-gnueabihf"
  · exact ⟨"arm-linux-gnueabihf", by simp [ZigToolchain.zig_target_for_rust_target, h3]⟩
  by_cases h4 : target.triple = "i686-unknown-linux-gnu"
  · exact ⟨"i386-linux-gnu", by simp [ZigToolchain.zig_target_for_rust_target, h4]⟩
  by_cases h5 : target.triple = "arm-unknown-linux-gnueabihf"
  · exact ⟨"arm-linux-gnueabihf", by simp [ZigToolchain.zig_target_for_rust_target, h5]⟩
  by_cases h6 : target.triple = "x86_64-unknown-linux-musl"
  · exact ⟨"x86_64-linux-musl", by simp [ZigToolchain.zig_target_for_rust_target, h6]⟩
  by_cases h7 : target.triple = "aarch64-unknown-linux-musl"
  · exact ⟨"aarch64-linux-musl", by simp [ZigToolchain.zig_target_for_rust_target, h7]⟩
  by_cases h8 : target.triple = "x86_64-pc-windows-gnu"
  · exact ⟨"x86_64-windows-gnu", by simp [ZigToolchain.zig_target_for_rust_target, h8]⟩
  by_cases h9 : target.triple = "i686-pc-windows-gnu"
  · exact ⟨"i686-windows-gnu", by simp [ZigToolchain.zig_target_for_rust_target, h9]⟩
  exfalso
  unfold ZigToolchain.supports_target_name at hsup
  rw [if_neg h1, if_neg h2, if_neg h3, if_neg h4, if_neg h5, if_neg h6, if_neg h7,
    if_neg h8, if_neg h9] at hsup
  split_ifs at hsup


/-! ### Claim theorems -/

/-- C1: for every build request with the container flag set to true — whatever
the other flags, including a forced or disabled Zig preference — strategy
selection chooses Container and leaves the file system untouched: the
container path short-circuits the wrapper eligibility check and the native
fallback. -/
theorem Builder.selectStrategy_container_short_circuit
    (containerFeature : Bool) (cfg : Config) (zig_toolchain : Option ZigToolchain)
    (host target : Target) (options : BuildOptions) (fs : FSState)
    (h : options.use_container = true) :
    Builder.selectStrategy containerFeature cfg zig_toolchain host target options fs
      = (Except.ok Strategy.Container, fs) := by
  simp [Builder.selectStrategy, h]

theorem Builder.selectStrategy_container_short_circuit_witness :
    ({ target := some "x86_64-pc-windows-gnu", release := true, verbose := false,
       toolchain := Option.none, use_container := true, use_zig := some true,
       cargo_args := [] : BuildOptions }).use_container = true
    ∧ Builder.selectStrategy false { container_use_when := "never" } Option.none
        { triple := "x86_64-unknown-linux-gnu", arch := "x86_64", vendor := "unknown",
          os := "linux", env := some "gnu", tier := TargetTier.Native }
        { triple := "x86_64-pc-windows-gnu", arch := "x86_64", vendor := "pc",
          os := "windows", env := some "gnu", tier := TargetTier.Native }
        { target := some "x86_64-pc-windows-gnu", release := true, verbose := false,
          toolchain := Option.none, use_container := true, use_zig := some true,
          cargo_args := [] } { files := [] }
      = (Except.ok Strategy.Container, { files := [] }) :=
  ⟨rfl, Builder.selectStrategy_container_short_circuit _ _ _ _ _ _ _ rfl⟩

/-- C2: for a target outside the Zig wrapper's supported set (with the
container path not taken), forcing the wrapper makes strategy selection fail
with a toolchain error — it never reaches the native strategy — while
automatic mode falls through to Native without an error. -/
theorem Builder.selectStrategy_forced_wrapper_unsupported
    (containerFeature : Bool) (cfg : Config) (zig_toolchain : Option ZigToolchain)
    (host target : Target) (options : BuildOptions) (fs : FSState)
    (hsup : ZigToolchain.supports_target_name target.triple = false)
    (hflag : options.use_container = false)
    (hpolicy : Builder.should_use_container_for_target containerFeature cfg host target = false) :
    (options.use_zig = some true →
      ∃ msg, Builder.selectStrategy containerFeature cfg zig_toolchain host target options fs
        = (Except.error (Error.Toolchain msg), fs))
    ∧ (options.use_zig = Option.none →
      Builder.selectStrategy containerFeature cfg zig_toolchain host target options fs
        = (Except.ok Strategy.Native, fs)) := by
  constructor
  · intro hforce
    simp only [Builder.selectStrategy, hflag, hpolicy, Bool.or_self, Bool.false_or, if_false,
      Builder.try_zig_cross_compilation, hforce]
    cases zig_toolchain with
    | none =>
      exact ⟨"Zig not found. Install Zig to use --zig flag: brew install zig (macOS) or scoop install zig (Windows)",
        by simp⟩
    | some zig =>
      exact ⟨"Zig does not support target '" ++ target.triple
          ++ "'. Supported targets: x86_64-linux-gnu, aarch64-linux-gnu, armv7-linux-gnueabihf",
        by simp [ZigToolchain.supports_target, hsup]⟩
  · intro hauto
    simp only [Builder.selectStrategy, hflag, hpolicy, Bool.or_self, Bool.false_or, if_false,
      Builder.try_zig_cross_compilation, hauto]
    by_cases hcross : target.os = host.os
    · simp [hcross]
    · cases zig_toolchain with
      | none => simp [hcross]
      | some zig => simp [hcross, ZigToolchain.supports_target, hsup]

theorem Builder.selectStrategy_forced_wrapper_unsupported_witness :
    (∃ msg, Builder.selectStrategy false { container_use_when := "never" } Option.none
        targetLinuxGnu targetDarwinX86
        { target := some "x86_64-apple-darwin", release := false, verbose := false,
          toolchain := Option.none, use_container := false, use_zig := some true,
          cargo_args := [] } { files := [] }
      = (Except.error (Error.Toolchain msg), { files := [] }))
    ∧ Builder.selectStrategy false { container_use_when := "never" } Option.none
        targetLinuxGnu targetDarwinX86
        { target := some "x86_64-apple-darwin", release := false, verbose := false,
          toolchain := Option.none, use_container := false, use_zig := Option.none,
          cargo_args := [] } { files := [] }
      = (Except.ok Strategy.Native, { files := [] }) :=
  ⟨(Builder.selectStrategy_forced_wrapper_unsupported false { container_use_when := "never" }
      Option.none targetLinuxGnu targetDarwinX86
      { target := some "x86_64-apple-darwin", release := false, verbose := false,
        toolchain := Option.none, use_container := false, use_zig := some true,
        cargo_args := [] } { files := [] } (by decide) rfl (by decide)).1 rfl,
   (Builder.selectStrategy_forced_wrapper_unsupported false { container_use_when := "never" }
      Option.none targetLinuxGnu targetDarwinX86
      { target := some "x86_64-apple-darwin", release := false, verbose := false,
        toolchain := Option.none, use_container := false, use_zig := Option.none,
        cargo_args := [] } { files := [] } (by decide) rfl (by decide)).2 rfl⟩

/-- C3: over any N targets with per-target outcomes given by an oracle, the
sequential orchestrator's failure list is exactly the failed targets (hence
has K entries when K targets fail) and the run errors iff K > 0; the parallel
orchestrator, for any completion order that is a permutation of the targets,
produces a failure list of the same length K and errors iff K > 0. -/
theorem Builder.build_all_aggregation
    (outcome : String → Except Error Unit) (targets : List String) :
    ((Builder.build_all outcome targets).2.1
        = targets.filter (fun t => isErrOutcome (outcome t))
      ∧ (isErrOutcome (Builder.build_all outcome targets).2.2 = true ↔
          0 < (targets.filter (fun t => isErrOutcome (outcome t))).length))
    ∧ ∀ order : List String, order.Perm targets →
        ((Builder.build_all_parallel outcome order).2.1.length
            = (targets.filter (fun t => isErrOutcome (outcome t))).length
          ∧ (isErrOutcome (Builder.build_all_parallel outcome order).2.2 = true ↔
              0 < (targets.filter (fun t => isErrOutcome (outcome t))).length)) := by
  constructor
  · unfold Builder.build_all
    rw [buildStep_foldl]
    simp only [List.nil_append]
    constructor
    · trivial
    · cases hf : targets.filter (fun t => isErrOutcome (outcome t)) with
      | nil => simp [isErrOutcome]
      | cons y ys => simp [isErrOutcome]
  · intro order hperm
    have hfilt : (order.filter (fun t => isErrOutcome (outcome t))).length
        = (targets.filter (fun t => isErrOutcome (outcome t))).length :=
      (hperm.filter (fun t => isErrOutcome (outcome t))).length_eq
    unfold Builder.build_all_parallel
    rw [buildStep_foldl]
    simp only [List.nil_append]
    constructor
    · exact hfilt
    · rw [← hfilt]
      cases hf : order.filter (fun t => isErrOutcome (outcome t)) with
      | nil => simp [isErrOutcome]
      | cons y ys => simp [isErrOutcome]

theorem Builder.build_all_aggregation_witness :
    (Builder.build_all_parallel demoOutcome ["B", "C", "A"]).2.1.length
        = ((["A", "B", "C"] : List String).filter
            (fun t => isErrOutcome (demoOutcome t))).length
    ∧ (isErrOutcome (Builder.build_all_parallel demoOutcome ["B", "C", "A"]).2.2 = true ↔
        0 < ((["A", "B", "C"] : List String).filter
              (fun t => isErrOutcome (demoOutcome t))).length) :=
  (Builder.build_all_aggregation demoOutcome ["A", "B", "C"]).2 ["B", "C", "A"] (by decide)

/-- C4: tier classification is a pure function of the triple (two calls
agree), every triple on the fixed Native allow-list classifies as Native, and
every triple containing a WASM, mobile or embedded marker (the android/ios
substrings or the wasm/thumb/riscv prefixes) classifies as Specialized. -/
theorem Target.classify_tier_spec :
    (∀ t : String, Target.classify_tier t = Target.classify_tier t)
    ∧ (∀ t ∈ nativeTier1Triples, Target.classify_tier t = TargetTier.Native)
    ∧ (∀ t : String,
        (strContains t "android" || strContains t "ios"
          || strStartsWith t "wasm" || strStartsWith t "thumb"
          || strStartsWith t "riscv") = true →
        Target.classify_tier t = TargetTier.Specialized) := by
  refine ⟨fun t => rfl, ?_, ?_⟩
  · intro t ht
    fin_cases ht <;> decide
  · intro t h
    cases hc : nativeTier1Triples.contains t with
    | true =>
      exfalso
      rw [List.contains_eq_any_beq] at hc
      simp [nativeTier1Triples] at hc
      rcases hc with h1 | h1 | h1 | h1 | h1 | h1 | h1 <;> subst h1 <;> exact absurd h (by decide)
    | false =>
      simp only [Target.classify_tier, h]
      rw [if_neg (by simpa using hc)]
      simp

theorem Target.classify_tier_spec_witness :
    "aarch64-apple-darwin" ∈ nativeTier1Triples
    ∧ Target.classify_tier "aarch64-apple-darwin" = TargetTier.Native
    ∧ (strContains "aarch64-linux-android" "android" || strContains "aarch64-linux-android" "ios"
        || strStartsWith "aarch64-linux-android" "wasm" || strStartsWith "aarch64-linux-android" "thumb"
        || strStartsWith "aarch64-linux-android" "riscv") = true
    ∧ Target.classify_tier "aarch64-linux-android" = TargetTier.Specialized := by
  refine ⟨by decide, Target.classify_tier_spec.2.1 "aarch64-apple-darwin" (by decide),
          by decide, Target.classify_tier_spec.2.2 "aarch64-linux-android" (by decide)⟩

/-- C5: parsing succeeds exactly on triples with at least 3 dash-separated
segments, and then the descriptor's `triple` field equals the input string;
with fewer than 3 segments it returns a target (parse) error. -/
theorem Target.from_triple_roundtrip (s : String) :
    (3 ≤ (splitDash s).length →
      ∃ t : Target, Target.from_triple s = Except.ok t ∧ t.triple = s)
    ∧ ((splitDash s).length < 3 →
      ∃ msg, Target.from_triple s = Except.error (Error.TargetNotFound msg)) := by
  constructor
  · intro hlen
    unfold Target.from_triple
    match hs : splitDash s with
    | arch :: vendor :: os :: rest =>
      exact ⟨_, rfl, rfl⟩
    | [] => rw [hs] at hlen; simp at hlen
    | [a] => rw [hs] at hlen; simp at hlen
    | [a, b] => rw [hs] at hlen; simp at hlen
  · intro hlen
    unfold Target.from_triple
    match hs : splitDash s with
    | arch :: vendor :: os :: rest =>
      rw [hs] at hlen; simp at hlen; omega
    | [] => exact ⟨_, rfl⟩
    | [a] => exact ⟨_, rfl⟩
    | [a, b] => exact ⟨_, rfl⟩

theorem Target.from_triple_roundtrip_witness :
    (3 ≤ (splitDash "x86_64-pc-windows-gnu").length
      ∧ ∃ t : Target, Target.from_triple "x86_64-pc-windows-gnu" = Except.ok t
          ∧ t.triple = "x86_64-pc-windows-gnu")
    ∧ ((splitDash "wasm32").length < 3
      ∧ ∃ msg, Target.from_triple "wasm32" = Except.error (Error.TargetNotFound msg)) :=
  ⟨⟨by decide, (Target.from_triple_roundtrip "x86_64-pc-windows-gnu").1 (by decide)⟩,
   ⟨by decide, (Target.from_triple_roundtrip "wasm32").2 (by decide)⟩⟩

/-- C6 counterexample: the per-target compiler shim is NOT protected by an
existence check — after a first generation call has created the shim for
`x86_64-unknown-linux-gnu`, a second call still writes that shim path (it
appears in the second call's write trace), refuting "a subsequent generation
call does not rewrite it".  Only the shared archiver shim has the existence
check. -/
theorem ZigToolchain.create_wrappers_rewrites_existing_shim :
    ((zigFix.create_wrappers targetLinuxGnu { files := [] }).2.1).hasFile
        (pathJoin zigFix.cache_dir (targetLinuxGnu.triple ++ "-cc")) = true
    ∧ ((zigFix.create_wrappers targetLinuxGnu
          (zigFix.create_wrappers targetLinuxGnu { files := [] }).2.1).2.2).contains
        (pathJoin zigFix.cache_dir (targetLinuxGnu.triple ++ "-cc")) = true := by
  decide

/-- C6 (amended): wrapper generation is idempotent at the level of file
contents: after a successful generation call, a second call for the same
target returns the same wrapper map, leaves every file's contents unchanged
(the resulting file system is equal), and writes only the per-target compiler
shim path — the shared archiver shim, which does have an existence check, is
not rewritten. -/
theorem ZigToolchain.create_wrappers_idempotent
    (zig : ZigToolchain) (target : Target) (fs : FSState)
    (w : List (String × String)) (fs1 : FSState) (tr1 : List String)
    (h : zig.create_wrappers target fs = (Except.ok w, fs1, tr1)) :
    zig.create_wrappers target fs1
      = (Except.ok w, fs1, [pathJoin zig.cache_dir (target.triple ++ "-cc")]) := by
  unfold ZigToolchain.create_wrappers at h ⊢
  cases hzt : ZigToolchain.zig_target_for_rust_target target with
  | none => rw [hzt] at h; simp at h
  | some zt =>
    rw [hzt] at h
    dsimp only at h ⊢
    by_cases har : (fs.write (pathJoin zig.cache_dir (target.triple ++ "-cc"))
        ("#!/bin/sh\nexec zig cc -target " ++ zt ++ " \"$@\"\n")).hasFile
          (pathJoin zig.cache_dir "zig-ar") = true
    · rw [if_pos har, if_pos har] at h
      have hw : w = mapInsert (mapInsert (mapInsert []
          "CC" (pathJoin zig.cache_dir (target.triple ++ "-cc"))) "LINKER"
          (pathJoin zig.cache_dir (target.triple ++ "-cc"))) "AR"
          (pathJoin zig.cache_dir "zig-ar") := by
        have := congrArg Prod.fst h
        simp only at this
        exact (Except.ok.inj this).symm
      have hfs : fs1 = fs.write (pathJoin zig.cache_dir (target.triple ++ "-cc"))
          ("#!/bin/sh\nexec zig cc -target " ++ zt ++ " \"$@\"\n") := by
        have := congrArg (fun x => x.2.1) h
        simp only at this
        exact this.symm
      have hwr : fs1.write (pathJoin zig.cache_dir (target.triple ++ "-cc"))
          ("#!/bin/sh\nexec zig cc -target " ++ zt ++ " \"$@\"\n") = fs1 := by
        apply FSState.write_noop
        rw [hfs]
        exact FSState.read_write_self _ _ _
      rw [hwr]
      rw [← hfs] at har
      rw [if_pos har, if_pos har, hw]
    · rw [if_neg har, if_neg har] at h
      have harcc : ¬ pathJoin zig.cache_dir "zig-ar"
          = pathJoin zig.cache_dir (target.triple ++ "-cc") := by
        intro he
        apply har
        rw [FSState.hasFile_write]
        simp [he]
      have hw : w = mapInsert (mapInsert (mapInsert []
          "CC" (pathJoin zig.cache_dir (target.triple ++ "-cc"))) "LINKER"
          (pathJoin zig.cache_dir (target.triple ++ "-cc"))) "AR"
          (pathJoin zig.cache_dir "zig-ar") := by
        have := congrArg Prod.fst h
        simp only at this
        exact (Except.ok.inj this).symm
      have hfs : fs1 = (fs.write (pathJoin zig.cache_dir (target.triple ++ "-cc"))
          ("#!/bin/sh\nexec zig cc -target " ++ zt ++ " \"$@\"\n")).write
          (pathJoin zig.cache_dir "zig-ar") "#!/bin/sh\nexec zig ar \"$@\"\n" := by
        have := congrArg (fun x => x.2.1) h
        simp only at this
        exact this.symm
      have hwr : fs1.write (pathJoin zig.cache_dir (target.triple ++ "-cc"))
          ("#!/bin/sh\nexec zig cc -target " ++ zt ++ " \"$@\"\n") = fs1 := by
        apply FSState.write_noop
        rw [hfs, FSState.read_write_ne _ _ _ _ (fun e => harcc e.symm)]
        exact FSState.read_write_self _ _ _
      have har1 : fs1.hasFile (pathJoin zig.cache_dir "zig-ar") = true := by
        rw [hfs, FSState.hasFile_write]
        simp
      rw [hwr, if_pos har1, if_pos har1, hw]

theorem ZigToolchain.create_wrappers_idempotent_witness :
    zigFix.create_wrappers targetLinuxGnu
        (zigFix.create_wrappers targetLinuxGnu { files := [] }).2.1
      = (Except.ok [("CC", "/home/user/.xcargo/zig-wrappers/x86_64-unknown-linux-gnu-cc"),
                    ("LINKER", "/home/user/.xcargo/zig-wrappers/x86_64-unknown-linux-gnu-cc"),
                    ("AR", "/home/user/.xcargo/zig-wrappers/zig-ar")],
         (zigFix.create_wrappers targetLinuxGnu { files := [] }).2.1,
         [pathJoin zigFix.cache_dir (targetLinuxGnu.triple ++ "-cc")]) := by
  exact ZigToolchain.create_wrappers_idempotent zigFix targetLinuxGnu { files := [] }
    [("CC", "/home/user/.xcargo/zig-wrappers/x86_64-unknown-linux-gnu-cc"),
     ("LINKER", "/home/user/.xcargo/zig-wrappers/x86_64-unknown-linux-gnu-cc"),
     ("AR", "/home/user/.xcargo/zig-wrappers/zig-ar")]
    (zigFix.create_wrappers targetLinuxGnu { files := [] }).2.1
    ["/home/user/.xcargo/zig-wrappers/x86_64-unknown-linux-gnu-cc",
     "/home/user/.xcargo/zig-wrappers/zig-ar"]
    (by decide)

/-- C7: for every target the Zig wrapper toolchain supports, the returned
environment map binds CC to the compiler shim path, AR to the shared archiver
shim path, and the linker-selection variable "CARGO_TARGET_" + the triple
uppercased with dashes replaced by underscores + "_LINKER" to the same
compiler shim path. -/
theorem ZigToolchain.environment_for_target_bindings
    (zig : ZigToolchain) (target : Target) (fs : FSState)
    (hsup : ZigToolchain.supports_target_name target.triple = true) :
    ∃ env fs1,
      zig.environment_for_target target fs = (Except.ok env, fs1)
      ∧ mapGet env "CC" = some (pathJoin zig.cache_dir (target.triple ++ "-cc"))
      ∧ mapGet env "AR" = some (pathJoin zig.cache_dir "zig-ar")
      ∧ mapGet env ("CARGO_TARGET_"
            ++ ((strToUpper target.triple).data.map
                  (fun c => if c = '-' then '_' else c)).asString
            ++ "_LINKER")
          = some (pathJoin zig.cache_dir (target.triple ++ "-cc")) := by
  obtain ⟨zt, hzt⟩ := zig_target_isSome_of_supported target hsup
  unfold ZigToolchain.environment_for_target
  rw [ZigToolchain.supports_target, hsup]
  unfold ZigToolchain.create_wrappers
  rw [hzt]
  dsimp only
  have hKcc : ("CARGO_TARGET_"
      ++ ((strToUpper target.triple).data.map
            (fun c => if c = '-' then '_' else c)).asString
      ++ "_LINKER") ≠ "CC" := linker_key_ne_cc _
  have hKar : ("CARGO_TARGET_"
      ++ ((strToUpper target.triple).data.map
            (fun c => if c = '-' then '_' else c)).asString
      ++ "_LINKER") ≠ "AR" := linker_key_ne_ar _
  refine ⟨_, _, rfl, ?_, ?_, ?_⟩ <;>
    simp [mapGet, mapInsert, hKcc, hKar, Ne.symm hKcc, Ne.symm hKar]

theorem ZigToolchain.environment_for_target_bindings_witness :
    ∃ env fs1,
      zigFix.environment_for_target targetLinuxGnu { files := [] } = (Except.ok env, fs1)
      ∧ mapGet env "CC" = some (pathJoin zigFix.cache_dir (targetLinuxGnu.triple ++ "-cc"))
      ∧ mapGet env "AR" = some (pathJoin zigFix.cache_dir "zig-ar")
      ∧ mapGet env ("CARGO_TARGET_"
            ++ ((strToUpper targetLinuxGnu.triple).data.map
                  (fun c => if c = '-' then '_' else c)).asString
            ++ "_LINKER")
          = some (pathJoin zigFix.cache_dir (targetLinuxGnu.triple ++ "-cc")) :=
  ZigToolchain.environment_for_target_bindings zigFix targetLinuxGnu { files := [] } (by decide)

/-- C8: parsing "aarch64-unknown-linux-gnu" yields a descriptor with tier
Container, the requirement oracle applied to that descriptor returns linker
"aarch64-linux-gnu-gcc", and requirement lookup is deterministic (repeated
calls on the same descriptor are equal). -/
theorem Target.aarch64_requirements_scenario :
    Target.from_triple "aarch64-unknown-linux-gnu"
      = Except.ok { triple := "aarch64-unknown-linux-gnu", arch := "aarch64",
                    vendor := "unknown", os := "linux", env := some "gnu",
                    tier := TargetTier.Container }
    ∧ (Target.get_requirements
        { triple := "aarch64-unknown-linux-gnu", arch := "aarch64",
          vendor := "unknown", os := "linux", env := some "gnu",
          tier := TargetTier.Container }).linker = some "aarch64-linux-gnu-gcc"
    ∧ ∀ u : Target, u.get_requirements = u.get_requirements :=
  ⟨by decide, by decide, fun u => rfl⟩

/-- C9: container image selection is total and never panics: the
"wasm32-unknown-unknown" triple yields a recoverable container error saying
containers are unnecessary, the macOS triples yield a recoverable error with
a remedy, and every triple without a dedicated table arm yields a recoverable
error naming the target and suggesting a custom image override. -/
theorem ImageSelector.select_for_target_errors (sel : ImageSelector) :
    (sel.select_for_target "wasm32-unknown-unknown"
      = Except.error (Error.Container
          "WebAssembly doesn't require containers - use native build"))
    ∧ (∀ t : String, t = "x86_64-apple-darwin" ∨ t = "aarch64-apple-darwin" →
        sel.select_for_target t
          = Except.error (Error.Container
              ("No container image available for macOS target: " ++ t
                ++ "\nConsider using osxcross or build on macOS")))
    ∧ (∀ t : String, t ∉ imageTableHandledTriples →
        sel.select_for_target t
          = Except.error (Error.Container
              ("No container image mapping for target: " ++ t
                ++ "\nYou can specify a custom image in xcargo.toml"))) := by
  refine ⟨rfl, ?_, ?_⟩
  · intro t ht
    rcases ht with h | h <;> subst h <;> rfl
  · intro t ht
    simp only [imageTableHandledTriples, List.mem_cons, List.not_mem_nil] at ht
    push_neg at ht
    obtain ⟨n1, n2, n3, n4, n5, n6, n7, n8, n9, n10, n11, n12, n13, n14, -⟩ := ht
    unfold ImageSelector.select_for_target
    rw [if_neg n1, if_neg n2, if_neg n3, if_neg n4, if_neg n5, if_neg n6, if_neg n7,
      if_neg (by simp [n8, n9]), if_neg n10, if_neg n11, if_neg n12, if_neg n13,
      if_neg n14]

theorem ImageSelector.select_for_target_errors_witness :
    ImageSelector.new.select_for_target "x86_64-apple-darwin"
      = Except.error (Error.Container
          ("No container image available for macOS target: " ++ "x86_64-apple-darwin"
            ++ "\nConsider using osxcross or build on macOS"))
    ∧ ImageSelector.new.select_for_target "powerpc64-unknown-freebsd"
      = Except.error (Error.Container
          ("No container image mapping for target: " ++ "powerpc64-unknown-freebsd"
            ++ "\nYou can specify a custom image in xcargo.toml")) :=
  ⟨(ImageSelector.select_for_target_errors ImageSelector.new).2.1
      "x86_64-apple-darwin" (Or.inl rfl),
   (ImageSelector.select_for_target_errors ImageSelector.new).2.2
      "powerpc64-unknown-freebsd" (by decide)⟩

/-- C10 counterexample: the "macos" alias does not map to a fixed full
triple — with an Apple Silicon darwin host it resolves to
"aarch64-apple-darwin", with an x86_64 linux host to "x86_64-apple-darwin",
and those triples differ. -/
theorem Target.resolve_alias_macos_host_dependent :
    Target.resolve_alias (Except.ok hostDarwinArm) "macos"
        = Except.ok "aarch64-apple-darwin"
    ∧ Target.resolve_alias (Except.ok targetLinuxGnu) "macos"
        = Except.ok "x86_64-apple-darwin"
    ∧ ("aarch64-apple-darwin" : String) ≠ "x86_64-apple-darwin" := by
  refine ⟨by decide, by decide, by decide⟩

/-- C10 (amended): alias resolution is total and never returns an error: for
every host-detection result and input string it returns Ok; an unrecognised
string is passed through unchanged in its original case; every recognised
alias except "macos" maps (case-insensitively) to its fixed full triple; the
"macos" alias resolves to one of the two darwin triples depending on the
detected host. -/
theorem Target.resolve_alias_total_passthrough
    (hostDetect : Except Error Target) (a : String) :
    (∃ s, Target.resolve_alias hostDetect a = Except.ok s)
    ∧ (strToLower a ∉ aliasKeys → Target.resolve_alias hostDetect a = Except.ok a)
    ∧ (∀ t, (strToLower a, t) ∈ fixedAliasTable →
        Target.resolve_alias hostDetect a = Except.ok t)
    ∧ (strToLower a = "macos" →
        Target.resolve_alias hostDetect a = Except.ok "aarch64-apple-darwin"
        ∨ Target.resolve_alias hostDetect a = Except.ok "x86_64-apple-darwin") := by
  refine ⟨⟨_, rfl⟩, ?_, ?_, ?_⟩
  · intro hmem
    simp only [aliasKeys, List.mem_cons, List.not_mem_nil] at hmem
    push_neg at hmem
    obtain ⟨n1, n2, n3, n4, n5, n6, n7, n8, n9, n10, n11, n12, n13, n14, n15,
      n16, n17, n18, n19, n20, n21, -⟩ := hmem
    unfold Target.resolve_alias
    dsimp only
    rw [if_neg n1, if_neg n2, if_neg n3, if_neg (by simp [n4, n5]), if_neg n6,
      if_neg n7, if_neg n8, if_neg n9, if_neg n10, if_neg n11,
      if_neg (by simp [n12, n13]), if_neg n14, if_neg n15,
      if_neg (by simp [n16, n17]), if_neg n18, if_neg (by simp [n19, n20]),
      if_neg n21]
  · intro t hmem
    simp only [fixedAliasTable, List.mem_cons, List.not_mem_nil, or_false,
      Prod.mk.injEq] at hmem
    unfold Target.resolve_alias
    dsimp only
    rcases hmem with ⟨h1, h2⟩ | ⟨h1, h2⟩ | ⟨h1, h2⟩ | ⟨h1, h2⟩ | ⟨h1, h2⟩ | ⟨h1, h2⟩
      | ⟨h1, h2⟩ | ⟨h1, h2⟩ | ⟨h1, h2⟩ | ⟨h1, h2⟩ | ⟨h1, h2⟩ | ⟨h1, h2⟩ | ⟨h1, h2⟩
      | ⟨h1, h2⟩ | ⟨h1, h2⟩ | ⟨h1, h2⟩ | ⟨h1, h2⟩ | ⟨h1, h2⟩ | ⟨h1, h2⟩ | ⟨h1, h2⟩ <;>
      subst h2 <;> rw [h1] <;> rfl
  · intro hmac
    unfold Target.resolve_alias
    dsimp only
    rw [hmac]
    cases hostDetect with
    | error e => right; rfl
    | ok host =>
      by_cases hh : host.arch = "aarch64" ∧ host.os = "darwin"
      · left
        simp only [if_neg (by decide : ¬("macos" : String) = "linux"),
          if_neg (by decide : ¬("macos" : String) = "windows"),
          if_pos (by decide : ("macos" : String) = "macos"), if_pos hh]
        rfl
      · right
        simp only [if_neg (by decide : ¬("macos" : String) = "linux"),
          if_neg (by decide : ¬("macos" : String) = "windows"),
          if_pos (by decide : ("macos" : String) = "macos"), if_neg hh]
        rfl

theorem Target.resolve_alias_total_passthrough_witness :
    Target.resolve_alias (Except.error (Error.Toolchain "e")) "LINUX-Arm64"
        = Except.ok "aarch64-unknown-linux-gnu"
    ∧ Target.resolve_alias (Except.error (Error.Toolchain "e")) "sparc64-custom"
        = Except.ok "sparc64-custom"
    ∧ (Target.resolve_alias (Except.error (Error.Toolchain "e")) "MacOS"
          = Except.ok "aarch64-apple-darwin"
       ∨ Target.resolve_alias (Except.error (Error.Toolchain "e")) "MacOS"
          = Except.ok "x86_64-apple-darwin") :=
  ⟨(Target.resolve_alias_total_passthrough (Except.error (Error.Toolchain "e"))
      "LINUX-Arm64").2.2.1 "aarch64-unknown-linux-gnu" (by decide),
   (Target.resolve_alias_total_passthrough (Except.error (Error.Toolchain "e"))
      "sparc64-custom").2.1 (by decide),
   (Target.resolve_alias_total_passthrough (Except.error (Error.Toolchain "e"))
      "MacOS").2.2.2 (by decide)⟩


end Xcargo
